import Mathlib

/-!
Verification development for the PSRC household travel survey tutorial
(notebook `psrc_hts_tutorial.ipynb`).

The notebook is a single-pass batch pipeline over in-memory trip tables:
a Cleaner (drop rows with missing timestamp strings, recompute travel
time from the raw timestamp strings, plausibility filter), a
mobility-metrics deriver (trip count, person-miles, vehicle-miles and a
trip-chain state walk per person-day), and a radius-of-gyration
calculator over each person's unique rounded coordinate points.

Rows are modelled as Lean structures; a pandas `NaN` cell is `Option.none`.
Python exceptions (a `ValueError` raised by `datetime.strptime`, the
`ZeroDivisionError` raised inside `rog`, a failing `DataFrame.apply`)
are modelled by `Option`-valued results: `none` is the raised exception.
Numeric columns are modelled with exact rationals.  The two external
library calls — `geopy.distance.geodesic(..).miles` and `math.sqrt` —
are not part of this repository, so they enter as explicit function
parameters; the claims that need facts about them take those facts as
hypotheses (for instance that the geodesic distance from a point to
itself is `0`).
-/

/-! ### Timestamp parsing

`travel_time_manual` feeds `row.arrival_time_string[:-1]` to
`datetime.strptime` with format `"Date: %Y-%m-%d %H:%M:%S.%f"`.
We model CPython `strptime` for this fixed format: the literal pieces
must match exactly, `%Y` is exactly four digits, `%m`, `%d`, `%H`,
`%M`, `%S` are one or two digits constrained by the `_strptime` regex
ranges (greedy two-digit match, one-digit fallback), `%f` is one to six
digits padded to microseconds, no input may remain, and the resulting
field values must be accepted by the `datetime` constructor
(year ≥ 1, second ≤ 59, day within the month).  Any failure is `none`
(a raised `ValueError`). -/

structure PDateTime where
  year : ℕ
  month : ℕ
  day : ℕ
  hour : ℕ
  minute : ℕ
  second : ℕ
  microsecond : ℕ
deriving DecidableEq, Repr

def digitVal (c : Char) : ℕ := c.toNat - 48

/-- Match one literal character. -/
def expectChar (c : Char) : List Char → Option (List Char)
  | x :: rest => if x = c then some rest else none
  | [] => none

/-- Match a literal character sequence. -/
def expectLit : List Char → List Char → Option (List Char)
  | [], cs => some cs
  | l :: ls, c :: cs => if c = l then expectLit ls cs else none
  | _ :: _, [] => none

/-- `%Y`: exactly four digits. -/
def take4Digits : List Char → Option (ℕ × List Char)
  | a :: b :: c :: d :: rest =>
    if a.isDigit && b.isDigit && c.isDigit && d.isDigit then
      some ((((digitVal a * 10 + digitVal b) * 10 + digitVal c) * 10 + digitVal d), rest)
    else none
  | _ => none

/-- A one- or two-digit field with an inclusive value range, matching the
CPython `_strptime` regexes (for example `1[0-2]|0[1-9]|[1-9]` for `%m`):
a two-digit match is taken when its value lies in the range, otherwise a
single digit in the range is taken. -/
def takeUpTo2 (lo hi : ℕ) : List Char → Option (ℕ × List Char)
  | a :: b :: rest =>
    if a.isDigit then
      let v2 := digitVal a * 10 + digitVal b
      if b.isDigit && (lo ≤ v2 && v2 ≤ hi) then some (v2, rest)
      else if lo ≤ digitVal a && digitVal a ≤ hi then some (digitVal a, b :: rest)
      else none
    else none
  | [a] =>
    if a.isDigit && (lo ≤ digitVal a && digitVal a ≤ hi) then some (digitVal a, [])
    else none
  | [] => none

/-- `%f`: one to six digits, greedy, scaled to microseconds
(`"5"` means 500000 µs). -/
def takeMicros (cs : List Char) : Option (ℕ × List Char) :=
  let digs := (cs.takeWhile (fun c => c.isDigit)).take 6
  if digs.length = 0 then none
  else
    let v := digs.foldl (fun acc c => acc * 10 + digitVal c) 0
    some (v * 10 ^ (6 - digs.length), cs.drop digs.length)

def isLeap (y : ℕ) : Bool := y % 4 == 0 && (y % 100 != 0 || y % 400 == 0)

def daysInMonth (y m : ℕ) : ℕ :=
  if m = 2 then (if isLeap y then 29 else 28)
  else if m = 4 ∨ m = 6 ∨ m = 9 ∨ m = 11 then 30
  else 31

/-- Parse a stripped timestamp string against
`"Date: %Y-%m-%d %H:%M:%S.%f"`; `none` is a raised `ValueError`. -/
def parseTimestamp (s : String) : Option PDateTime := do
  let cs ← expectLit ("Date: ".data) s.data
  let (y, cs) ← take4Digits cs
  let cs ← expectChar '-' cs
  let (mo, cs) ← takeUpTo2 1 12 cs
  let cs ← expectChar '-' cs
  let (d, cs) ← takeUpTo2 1 31 cs
  let cs ← expectChar ' ' cs
  let (h, cs) ← takeUpTo2 0 23 cs
  let cs ← expectChar ':' cs
  let (mi, cs) ← takeUpTo2 0 59 cs
  let cs ← expectChar ':' cs
  let (sec, cs) ← takeUpTo2 0 61 cs
  let cs ← expectChar '.' cs
  let (us, cs) ← takeMicros cs
  match cs with
  | [] =>
    if 1 ≤ y && (sec ≤ 59 && d ≤ daysInMonth y mo) then
      some ⟨y, mo, d, h, mi, sec, us⟩
    else none
  | _ :: _ => none

/-- Days in all years before year `y` (proleptic Gregorian), as in
`datetime.toordinal`. -/
def daysBeforeYear (y : ℕ) : ℕ :=
  365 * (y - 1) + (y - 1) / 4 + (y - 1) / 400 - (y - 1) / 100

/-- Days in year `y` before month `m`. -/
def daysBeforeMonth (y m : ℕ) : ℕ :=
  ((List.range (m - 1)).map (fun k => daysInMonth y (k + 1))).sum

/-- `datetime.toordinal`: day count with day 1 = 0001-01-01. -/
def toordinal (dt : PDateTime) : ℕ :=
  daysBeforeYear dt.year + daysBeforeMonth dt.year dt.month + dt.day

/-- The instant of a parsed datetime, in microseconds from the proleptic
origin; `datetime` subtraction is the difference of these values. -/
def dtMicros (dt : PDateTime) : ℕ :=
  (((toordinal dt * 24 + dt.hour) * 60 + dt.minute) * 60 + dt.second) * 1000000
    + dt.microsecond

/-! ### Trip rows and the Cleaner -/

/-- One row of the trips table.  Only the columns the pipeline reads are
modelled; a missing (`NaN`) cell is `none`.  `travel_time_calc` is the
column written by the Cleaner (absent on raw input). -/
structure Trip where
  person_dim_id : ℕ := 0
  daynum : ℕ := 1
  arrival_time_string : Option String := none
  depart_time_string : Option String := none
  travel_time_calc : Option ℚ := none
  origin_purpose : String := ""
  dest_purpose : String := ""
  mode_simple : String := ""
  trip_path_distance : ℚ := 0
  age : String := ""
deriving DecidableEq, Repr

/-- Python `s[:-1]`: the string without its final character. -/
def stripLast (s : String) : String := String.mk s.data.dropLast

/-- `travel_time_manual(row)`: strip the trailing character of each
timestamp string, parse both, and return
`abs(arrival - departure).total_seconds() / 60`, i.e. the absolute
difference in microseconds divided by `60000000`, written with `mkRat`
(the same exact rational; `travel_time_manual_correct` below proves it
equal to the two-step division).  A missing string (the `[:-1]` slice of
a `NaN` raises `TypeError`) or an unparseable string (`strptime` raises
`ValueError`) is a raised exception, i.e. `none`. -/
def travel_time_manual (r : Trip) : Option ℚ :=
  match r.arrival_time_string, r.depart_time_string with
  | some sa, some sd =>
    match parseTimestamp (stripLast sa), parseTimestamp (stripLast sd) with
    | some ta, some td =>
      some (mkRat (((dtMicros ta : ℤ) - (dtMicros td : ℤ)).natAbs) 60000000)
    | _, _ => none
  | _, _ => none

/-- `trips.dropna(subset=['depart_time_string', 'arrival_time_string'])`:
pandas `dropna` with default `how='any'` keeps a row only when every
subset column is non-null. -/
def dropMissingTimestamps (l : List Trip) : List Trip :=
  l.filter (fun r => r.depart_time_string.isSome && r.arrival_time_string.isSome)

/-- `trips_clean.apply(travel_time_manual, axis=1)` writing column
`travel_time_calc`: the per-row function is applied to every row; if it
raises on any row the whole `apply` raises and no output table is
produced. -/
def applyTravelTimeCalc : List Trip → Option (List Trip)
  | [] => some []
  | r :: rs =>
    match travel_time_manual r with
    | none => none
    | some t =>
      match applyTravelTimeCalc rs with
      | none => none
      | some rs1 => some ({ r with travel_time_calc := some t } :: rs1)

/-- The plausibility predicate of
`trips_clean[(trips_clean.travel_time_calc < ceiling) & (trips_clean.daynum.isin(days))]`;
a null `travel_time_calc` compares as false. -/
def keepRow (ceiling : ℚ) (days : List ℕ) (r : Trip) : Bool :=
  (match r.travel_time_calc with
   | some t => decide (t < ceiling)
   | none => false) && days.contains r.daynum

/-- The plausibility filter step, parameterised by the ceiling and the
day-type set (the notebook hardcodes `120` and `[1,2,3,4,5]`). -/
def plausibilityFilter (ceiling : ℚ) (days : List ℕ) (l : List Trip) : List Trip :=
  l.filter (keepRow ceiling days)

/-- The full Cleaner on a raw trips table: drop rows with a missing
timestamp string, recompute `travel_time_calc` for every remaining row
(the whole step fails if any row fails to parse), then apply the
plausibility filter with the notebook's defaults. -/
def trips_clean (l : List Trip) : Option (List Trip) :=
  (applyTravelTimeCalc (dropMissingTimestamps l)).map (plausibilityFilter 120 [1, 2, 3, 4, 5])

/-! ### Mobility-metrics deriver -/

/-- The trip-chain state walk inside `mobility_metrics`: one ordered
pass over a person-day's trips with a `start_home` flag.  Written as a
recursion on the trip list; `flag` is the value of `start_home` when the
loop reaches the current trip, and the result is the number of
`trip_chains += 1` executions on the remaining trips.  Branch order is
exactly the notebook's: set the flag on a "Went home" origin, then
`continue` on a non-home destination with an open chain, then `continue`
on a home-to-home trip, then close and count an open chain on a home
destination. -/
def tripChainWalk (flag : Bool) : List Trip → ℕ
  | [] => 0
  | t :: ts =>
    let flag1 := if t.origin_purpose = "Went home" then true else flag
    if t.dest_purpose ≠ "Went home" ∧ flag1 = true then
      tripChainWalk flag1 ts
    else if t.dest_purpose = "Went home" ∧ t.origin_purpose = "Went home" then
      tripChainWalk flag1 ts
    else if t.dest_purpose = "Went home" ∧ flag1 = true then
      1 + tripChainWalk false ts
    else
      tripChainWalk flag1 ts

/-- The four per-person-day aggregates returned by `mobility_metrics`
as a `pd.Series`. -/
structure MobilityMetrics where
  num_trips : ℕ
  pmt : ℚ
  vmt : ℚ
  trip_chains : ℕ
deriving DecidableEq, Repr

/-- `mobility_metrics(row)` for the person-day `(pid, day)` over the
cleaned trips table: filter the table to that person and day, then
count trips, sum `trip_path_distance`, sum it again restricted to
`mode_simple == 'Drive'`, and run the trip-chain walk with
`start_home = False`. -/
def mobility_metrics (table : List Trip) (pid day : ℕ) : MobilityMetrics :=
  let trips_day_person := table.filter (fun r => r.person_dim_id == pid && r.daynum == day)
  { num_trips := trips_day_person.length
    pmt := (trips_day_person.map (fun r => r.trip_path_distance)).sum
    vmt := ((trips_day_person.filter (fun r => r.mode_simple == "Drive")).map
      (fun r => r.trip_path_distance)).sum
    trip_chains := tripChainWalk false trips_day_person }

/-! ### Adult filter before the cross-year weighted comparison -/

/-- `trips_clean_adults`: the notebook keeps a row when
`(age != "Under 5 years old") | (age != "5-11 years") | (age != "12-15 years") | (age != "16-17 years")`,
a disjunction of disequalities (`|`, not `&`). -/
def trips_clean_adults (l : List Trip) : List Trip :=
  l.filter (fun r =>
    (r.age != "Under 5 years old") || (r.age != "5-11 years") ||
    (r.age != "12-15 years") || (r.age != "16-17 years"))

/-! ### Radius of gyration

`rog` and `rog_centroid_df` work on the table `trips_od` of trips merged
with origin/destination coordinates.  The two external library calls are
parameters: `dist` stands for `geopy.distance.geodesic(p, q).miles`
(taking two (latitude, longitude) pairs) and `sqrt` for `math.sqrt`;
coordinates and means are exact rationals. -/

/-- One row of `trips_od` (only the columns `rog_centroid_df` reads). -/
structure TripOD where
  person_dim_id : ℕ := 0
  origin_lat : ℚ := 0
  origin_lng : ℚ := 0
  dest_lat : ℚ := 0
  dest_lng : ℚ := 0
deriving DecidableEq, Repr

/-- Python `round(x)` (round half to even), on exact rationals. -/
def pyround (x : ℚ) : ℤ :=
  if Int.fract x = 1 / 2 then 2 * round (x / 2) else round x

/-- Python `round(x, 3)`: round to three decimal places. -/
def round3 (x : ℚ) : ℚ := (pyround (x * 1000) : ℚ) / 1000

/-- `rog(points, centroid)`: the list `d_i` of distances from each point
to `(centroid[1], centroid[0])`, the loop `sum_di += d_i[i]**2`, and
`math.sqrt(sum_di / n)`.  With an empty point list the `sum_di / n`
raises `ZeroDivisionError`, modelled as `none`. -/
def rog (sqrt : ℚ → ℚ) (dist : ℚ × ℚ → ℚ × ℚ → ℚ)
    (points : List (ℚ × ℚ)) (centroid : ℚ × ℚ) : Option ℚ :=
  let d_i := points.map (fun p => dist p (centroid.2, centroid.1))
  let n := d_i.length
  if n = 0 then none
  else
    let sum_di := d_i.foldl (fun acc d => acc + d ^ 2) 0
    some (sqrt (sum_di / n))

/-- The filter `trips_od[trips_od.person_dim_id == row.person_id]`. -/
def personTrips (table : List TripOD) (pid : ℕ) : List TripOD :=
  table.filter (fun t => t.person_dim_id == pid)

/-- The `unique_lat` set built by `rog_centroid_df`: the rounded origin
and destination latitudes of every trip of the person.  Python sets are
modelled as duplicate-free lists built by `List.insert` (membership test
before insertion); every later use — mean, sum of squared distances —
is independent of element order, so the arbitrary iteration order of a
Python set is immaterial. -/
def uniqueLat (l : List TripOD) : List ℚ :=
  l.foldr (fun t s => List.insert (round3 t.origin_lat) (List.insert (round3 t.dest_lat) s)) []

/-- The `unique_lng` set: the rounded origin and destination
longitudes. -/
def uniqueLng (l : List TripOD) : List ℚ :=
  l.foldr (fun t s => List.insert (round3 t.origin_lng) (List.insert (round3 t.dest_lng) s)) []

/-- The `unique_pts` set: the rounded (latitude, longitude) origin and
destination pairs. -/
def uniquePts (l : List TripOD) : List (ℚ × ℚ) :=
  l.foldr (fun t s =>
    List.insert (round3 t.origin_lat, round3 t.origin_lng)
      (List.insert (round3 t.dest_lat, round3 t.dest_lng) s)) []

/-- The arithmetic mean of a (duplicate-free) list of rationals, as
`np.mean(list(s))` (exact; `0` for the empty list, where NumPy yields
`NaN` — the empty case is only reached when `rog` fails anyway). -/
def setMean (s : List ℚ) : ℚ := s.sum / s.length

/-- `rog_centroid_df(row)` for a person: filter `trips_od` to the
person's trips, build the unique rounded coordinate sets, form
`centroid = (np.mean(list(unique_lng)), np.mean(list(unique_lat)))`,
and return `rog(list(unique_pts), centroid)`; the `try/except` maps any
raised exception to `None`. -/
def rog_centroid_df (sqrt : ℚ → ℚ) (dist : ℚ × ℚ → ℚ × ℚ → ℚ)
    (table : List TripOD) (pid : ℕ) : Option ℚ :=
  let person_trips := personTrips table pid
  let centroid := (setMean (uniqueLng person_trips), setMean (uniqueLat person_trips))
  rog sqrt dist (uniquePts person_trips) centroid

/-! ### Helper lemmas -/

theorem travel_time_manual_eq_verbose (r : Trip) (sa sd : String) (ta td : PDateTime)
    (ha : r.arrival_time_string = some sa) (hd : r.depart_time_string = some sd)
    (hpa : parseTimestamp (stripLast sa) = some ta)
    (hpd : parseTimestamp (stripLast sd) = some td) :
    travel_time_manual r
      = some (((((dtMicros ta : ℤ) - (dtMicros td : ℤ)).natAbs : ℚ)) / 1000000 / 60) := by
  simp only [travel_time_manual, ha, hd, hpa, hpd, Rat.mkRat_eq_div]
  push_cast
  rw [div_div]
  norm_num [Int.cast_natAbs]

theorem adult_pred_true (s : String) :
    ((s != "Under 5 years old") || (s != "5-11 years") ||
      (s != "12-15 years") || (s != "16-17 years")) = true := by
  rcases eq_or_ne s "Under 5 years old" with h | h
  · rw [h]; decide
  · simp [bne_iff_ne, h]

/-! ### Claim theorems -/

/-- Claim C1: for a single person-day, the trip-chain state walk yields
count 1 on [home→work, work→home], count 0 on [home→home], and count 1
on [home→work, work→store, store→home], where home means the purpose
string "Went home". -/
theorem trip_chain_walk_examples :
    (mobility_metrics
      [{ person_dim_id := 7, daynum := 2, origin_purpose := "Went home", dest_purpose := "Went to work" },
       { person_dim_id := 7, daynum := 2, origin_purpose := "Went to work", dest_purpose := "Went home" }] 7 2).trip_chains = 1
  ∧ (mobility_metrics
      [{ person_dim_id := 7, daynum := 2, origin_purpose := "Went home", dest_purpose := "Went home" }] 7 2).trip_chains = 0
  ∧ (mobility_metrics
      [{ person_dim_id := 7, daynum := 2, origin_purpose := "Went home", dest_purpose := "Went to work" },
       { person_dim_id := 7, daynum := 2, origin_purpose := "Went to work", dest_purpose := "Went to store" },
       { person_dim_id := 7, daynum := 2, origin_purpose := "Went to store", dest_purpose := "Went home" }] 7 2).trip_chains = 1 := by
  refine ⟨?_, ?_, ?_⟩ <;> decide

/-- Claim C2: for every trip row whose stripped arrival and departure
timestamp strings both parse, the recomputed travel time is the absolute
difference of the parsed instants expressed in minutes
(microseconds / 1000000 / 60), and that value is nonnegative. -/
theorem travel_time_manual_correct (r : Trip) (sa sd : String) (ta td : PDateTime)
    (ha : r.arrival_time_string = some sa) (hd : r.depart_time_string = some sd)
    (hpa : parseTimestamp (stripLast sa) = some ta)
    (hpd : parseTimestamp (stripLast sd) = some td) :
    travel_time_manual r
      = some (((((dtMicros ta : ℤ) - (dtMicros td : ℤ)).natAbs : ℚ)) / 1000000 / 60)
    ∧ (0 : ℚ) ≤ ((((dtMicros ta : ℤ) - (dtMicros td : ℤ)).natAbs : ℚ)) / 1000000 / 60 := by
  refine ⟨travel_time_manual_eq_verbose r sa sd ta td ha hd hpa hpd, ?_⟩
  positivity

/-- Witness for C2 at a concrete row: a 30-minute trip. -/
theorem travel_time_manual_correct_witness :
    travel_time_manual
        { arrival_time_string := some "Date: 2021-03-01 10:30:00.0Z",
          depart_time_string := some "Date: 2021-03-01 10:00:00.0Z" }
      = some (((((dtMicros ⟨2021, 3, 1, 10, 30, 0, 0⟩ : ℤ)
          - (dtMicros ⟨2021, 3, 1, 10, 0, 0, 0⟩ : ℤ)).natAbs : ℚ)) / 1000000 / 60)
    ∧ (0 : ℚ) ≤ ((((dtMicros ⟨2021, 3, 1, 10, 30, 0, 0⟩ : ℤ)
          - (dtMicros ⟨2021, 3, 1, 10, 0, 0, 0⟩ : ℤ)).natAbs : ℚ)) / 1000000 / 60 :=
  travel_time_manual_correct _ _ _ _ _ rfl rfl (by decide) (by decide)

/-- Claim C3: the plausibility filter keeps exactly the rows whose
recomputed travel time is strictly below the ceiling and whose day
number is in the day-type set. -/
theorem plausibilityFilter_mem (ceiling : ℚ) (days : List ℕ) (l : List Trip)
    (r : Trip) (t : ℚ) (ht : r.travel_time_calc = some t) :
    r ∈ plausibilityFilter ceiling days l ↔ r ∈ l ∧ t < ceiling ∧ r.daynum ∈ days := by
  unfold plausibilityFilter keepRow
  rw [List.mem_filter, ht]
  simp [List.elem_iff, and_assoc]

/-- Witness for C3: a 30-minute Monday row is kept by the default
filter. -/
theorem plausibilityFilter_mem_witness :
    ({ travel_time_calc := some 30, daynum := 1 : Trip}
        ∈ plausibilityFilter 120 [1, 2, 3, 4, 5] [{ travel_time_calc := some 30, daynum := 1 }]
      ↔ ({ travel_time_calc := some 30, daynum := 1 : Trip}
          ∈ [({ travel_time_calc := some 30, daynum := 1 : Trip})]
        ∧ (30 : ℚ) < 120 ∧ (1 : ℕ) ∈ [1, 2, 3, 4, 5])) :=
  plausibilityFilter_mem 120 [1, 2, 3, 4, 5] _ _ 30 rfl

/-- Counterexample to claim C5 as stated: a row with its arrival string
present but its departure string missing is nevertheless removed by the
missing-timestamp drop (pandas `dropna` defaults to `how='any'`, not
`how='all'`). -/
theorem dropMissing_removes_half_missing_row :
    dropMissingTimestamps [{ arrival_time_string := some "Date: x" }] = [] := by
  decide

/-- Claim C5 (amended): the missing-timestamp drop removes exactly the
rows missing at least one of the two timestamp strings; a row is kept
iff both strings are present. -/
theorem dropMissingTimestamps_mem (l : List Trip) (r : Trip) :
    r ∈ dropMissingTimestamps l
      ↔ r ∈ l ∧ r.depart_time_string.isSome ∧ r.arrival_time_string.isSome := by
  unfold dropMissingTimestamps
  rw [List.mem_filter]
  simp [and_assoc]

/-- Claim C10: the adult-only filter's `|`-joined disequalities are true
of every row (any age string differs from at least three of the four
child categories), so the filter retains its entire input. -/
theorem trips_clean_adults_keeps_all (l : List Trip) : trips_clean_adults l = l := by
  unfold trips_clean_adults
  exact List.filter_eq_self.mpr (fun r _ => adult_pred_true r.age)

theorem tripChainWalk_le_length (l : List Trip) : ∀ flag, tripChainWalk flag l ≤ l.length := by
  induction l with
  | nil => intro flag; simp [tripChainWalk]
  | cons t ts ih =>
    intro flag
    have h1 := ih true
    have h2 := ih false
    have h3 := ih flag
    simp only [tripChainWalk, List.length_cons]
    repeat' split
    all_goals omega

theorem tripChainWalk_no_home (l : List Trip)
    (h : ∀ t ∈ l, t.origin_purpose ≠ "Went home" ∧ t.dest_purpose ≠ "Went home") :
    ∀ flag, tripChainWalk flag l = 0 := by
  induction l with
  | nil => intro flag; rfl
  | cons t ts ih =>
    intro flag
    obtain ⟨ho, hd⟩ := h t (List.mem_cons_self t ts)
    have hts := fun x hx => h x (List.mem_cons_of_mem t hx)
    simp only [tripChainWalk, if_neg ho]
    cases flag <;> simp [hd, ih hts]

/-- Claim C8: for every person-day, the trip-chain count is at most the
trip count, and if no trip of that person-day has origin or destination
purpose "Went home" then the trip-chain count is 0. -/
theorem trip_chain_invariants (table : List Trip) (pid day : ℕ) :
    (mobility_metrics table pid day).trip_chains ≤ (mobility_metrics table pid day).num_trips
    ∧ ((∀ t ∈ table, t.person_dim_id = pid → t.daynum = day →
          t.origin_purpose ≠ "Went home" ∧ t.dest_purpose ≠ "Went home") →
        (mobility_metrics table pid day).trip_chains = 0) := by
  constructor
  · exact tripChainWalk_le_length _ false
  · intro h
    refine tripChainWalk_no_home _ (fun t ht => ?_) false
    have hmem := List.mem_of_mem_filter ht
    have hpred := List.of_mem_filter ht
    simp only [Bool.and_eq_true, beq_iff_eq] at hpred
    exact h t hmem hpred.1 hpred.2

/-- Witness for C8 at a concrete table: one work-to-store trip. -/
theorem trip_chain_invariants_witness :
    (mobility_metrics [{ person_dim_id := 3, origin_purpose := "Went to work", dest_purpose := "Went to store" }] 3 1).trip_chains ≤ (mobility_metrics [{ person_dim_id := 3, origin_purpose := "Went to work", dest_purpose := "Went to store" }] 3 1).num_trips
    ∧ (mobility_metrics [{ person_dim_id := 3, origin_purpose := "Went to work", dest_purpose := "Went to store" }] 3 1).trip_chains = 0 :=
  ⟨(trip_chain_invariants _ 3 1).1, (trip_chain_invariants _ 3 1).2 (by decide)⟩

theorem applyTravelTimeCalc_none (rs : List Trip) (r : Trip) (hr : r ∈ rs)
    (hfail : travel_time_manual r = none) : applyTravelTimeCalc rs = none := by
  induction rs with
  | nil => cases hr
  | cons a ts ih =>
    rcases List.mem_cons.mp hr with h | h
    · subst h
      simp [applyTravelTimeCalc, hfail]
    · simp only [applyTravelTimeCalc]
      rw [ih h]
      cases travel_time_manual a <;> rfl

/-- Counterexample to claim C4 as stated: with one parseable row and one
row whose arrival string does not match the format, the Cleaner produces
no output at all (the `apply` raises through the whole pipeline) instead
of excluding the bad row and keeping the good one — which it would keep
on its own, as the second conjunct shows. -/
theorem trips_clean_aborts_on_bad_timestamp :
    trips_clean
        [{ arrival_time_string := some "Date: 2021-03-01 10:30:00.0Z", depart_time_string := some "Date: 2021-03-01 10:00:00.0Z" },
         { arrival_time_string := some "garbageX", depart_time_string := some "Date: 2021-03-01 10:00:00.0Z" }]
      = none
    ∧ trips_clean
        [{ arrival_time_string := some "Date: 2021-03-01 10:30:00.0Z", depart_time_string := some "Date: 2021-03-01 10:00:00.0Z" }]
      = some
        [{ arrival_time_string := some "Date: 2021-03-01 10:30:00.0Z", depart_time_string := some "Date: 2021-03-01 10:00:00.0Z", travel_time_calc := some 30 }] := by
  constructor
  · decide
  · decide

/-- Claim C4 (amended): when a row that survives the missing-string drop
has a timestamp that does not parse, the recomputation step fails loudly
for the whole table — the Cleaner returns an error and produces no
cleaned output (so the unparseable value is never silently coerced to a
default, but the remaining rows do not appear in any cleaned output
either). -/
theorem trips_clean_fails_loudly (l : List Trip) (r : Trip)
    (hr : r ∈ dropMissingTimestamps l) (hfail : travel_time_manual r = none) :
    trips_clean l = none := by
  unfold trips_clean
  rw [applyTravelTimeCalc_none _ r hr hfail]
  rfl

/-- Witness for the amended C4: the two-row table of the counterexample,
with the bad row as the failing row. -/
theorem trips_clean_fails_loudly_witness :
    trips_clean
        [{ arrival_time_string := some "Date: 2021-03-01 10:30:00.0Z", depart_time_string := some "Date: 2021-03-01 10:00:00.0Z" },
         { arrival_time_string := some "garbageX", depart_time_string := some "Date: 2021-03-01 10:00:00.0Z" }]
      = none :=
  trips_clean_fails_loudly _
    { arrival_time_string := some "garbageX", depart_time_string := some "Date: 2021-03-01 10:00:00.0Z" }
    (by decide) (by decide)

theorem travel_time_manual_update (r : Trip) (x : Option ℚ) :
    travel_time_manual { r with travel_time_calc := x } = travel_time_manual r := rfl

theorem update_travel_time_self (r : Trip) (t : ℚ) (h : r.travel_time_calc = some t) :
    { r with travel_time_calc := some t } = r := by
  cases r
  subst h
  rfl

theorem applyTravelTimeCalc_sound (rs rs1 : List Trip)
    (h : applyTravelTimeCalc rs = some rs1) :
    ∀ r1 ∈ rs1, ∃ r ∈ rs, ∃ t, travel_time_manual r = some t
      ∧ r1 = { r with travel_time_calc := some t } := by
  induction rs generalizing rs1 with
  | nil =>
    intro r1 h1
    simp only [applyTravelTimeCalc, Option.some.injEq] at h
    subst h
    cases h1
  | cons a ts ih =>
    intro r1 h1
    simp only [applyTravelTimeCalc] at h
    cases hta : travel_time_manual a with
    | none => rw [hta] at h; cases h
    | some t =>
      rw [hta] at h
      cases hts : applyTravelTimeCalc ts with
      | none => rw [hts] at h; cases h
      | some ts1 =>
        rw [hts] at h
        injection h with h
        subst h
        rcases List.mem_cons.mp h1 with h1 | h1
        · exact ⟨a, List.mem_cons_self _ _, t, hta, h1⟩
        · obtain ⟨r, hr, t2, htm2, heq⟩ := ih _ hts r1 h1
          exact ⟨r, List.mem_cons_of_mem _ hr, t2, htm2, heq⟩

theorem applyTravelTimeCalc_fixpoint (rs : List Trip)
    (h : ∀ r ∈ rs, ∃ t, travel_time_manual r = some t ∧ r.travel_time_calc = some t) :
    applyTravelTimeCalc rs = some rs := by
  induction rs with
  | nil => rfl
  | cons a ts ih =>
    obtain ⟨t, hta, htc⟩ := h a (List.mem_cons_self a ts)
    simp only [applyTravelTimeCalc, hta, ih (fun r hr => h r (List.mem_cons_of_mem a hr))]
    rw [update_travel_time_self a t htc]

/-- Claim C9: the Cleaner is idempotent — whenever cleaning a raw table
succeeds, cleaning the output again succeeds and returns the output
unchanged. -/
theorem trips_clean_idempotent (l u : List Trip) (h : trips_clean l = some u) :
    trips_clean u = some u := by
  unfold trips_clean at h ⊢
  cases happ : applyTravelTimeCalc (dropMissingTimestamps l) with
  | none => rw [happ] at h; cases h
  | some rs1 =>
    rw [happ] at h
    simp only [Option.map_some', Option.some.injEq] at h
    have hmem : ∀ r1 ∈ u, r1 ∈ rs1 := fun r1 h1 => List.mem_of_mem_filter (h ▸ h1)
    have hkeep : ∀ r1 ∈ u, keepRow 120 [1, 2, 3, 4, 5] r1 = true :=
      fun r1 h1 => List.of_mem_filter (h ▸ h1)
    have hsound := applyTravelTimeCalc_sound _ _ happ
    have hpres : ∀ r1 ∈ u,
        (r1.depart_time_string.isSome && r1.arrival_time_string.isSome) = true := by
      intro r1 h1
      obtain ⟨r, hrms, t, htm, heq⟩ := hsound r1 (hmem r1 h1)
      have hp := List.of_mem_filter hrms
      subst heq
      simpa using hp
    have htm1 : ∀ r1 ∈ u, ∃ t, travel_time_manual r1 = some t
        ∧ r1.travel_time_calc = some t := by
      intro r1 h1
      obtain ⟨r, hrms, t, htm, heq⟩ := hsound r1 (hmem r1 h1)
      subst heq
      exact ⟨t, by rw [travel_time_manual_update]; exact htm, rfl⟩
    have hdrop : dropMissingTimestamps u = u := List.filter_eq_self.mpr hpres
    rw [hdrop, applyTravelTimeCalc_fixpoint u htm1]
    simp only [Option.map_some', Option.some.injEq]
    exact List.filter_eq_self.mpr hkeep

/-- Witness for C9: a one-row table that cleans to a 25-minute Monday
trip, on which the Cleaner is a fixpoint. -/
theorem trips_clean_idempotent_witness :
    trips_clean [{ arrival_time_string := some "Date: 2019-07-02 08:25:00.0Z", depart_time_string := some "Date: 2019-07-02 08:00:00.0Z", daynum := 2 }]
      = some [{ arrival_time_string := some "Date: 2019-07-02 08:25:00.0Z", depart_time_string := some "Date: 2019-07-02 08:00:00.0Z", daynum := 2, travel_time_calc := some 25 }]
    ∧ trips_clean [{ arrival_time_string := some "Date: 2019-07-02 08:25:00.0Z", depart_time_string := some "Date: 2019-07-02 08:00:00.0Z", daynum := 2, travel_time_calc := some 25 }]
      = some [{ arrival_time_string := some "Date: 2019-07-02 08:25:00.0Z", depart_time_string := some "Date: 2019-07-02 08:00:00.0Z", daynum := 2, travel_time_calc := some 25 }] :=
  ⟨by decide,
    trips_clean_idempotent
      [{ arrival_time_string := some "Date: 2019-07-02 08:25:00.0Z", depart_time_string := some "Date: 2019-07-02 08:00:00.0Z", daynum := 2, travel_time_calc := some 25 }]
      [{ arrival_time_string := some "Date: 2019-07-02 08:25:00.0Z", depart_time_string := some "Date: 2019-07-02 08:00:00.0Z", daynum := 2, travel_time_calc := some 25 }]
      (by decide)⟩

theorem foldl_add_sq (xs : List ℚ) (c : ℚ) :
    xs.foldl (fun acc d => acc + d ^ 2) c = c + (xs.map (fun d => d ^ 2)).sum := by
  induction xs generalizing c with
  | nil => simp
  | cons x xs ih => simp [ih, add_assoc]

theorem pair_mem_uniquePts (l : List TripOD) (t : TripOD) (ht : t ∈ l) :
    (round3 t.origin_lat, round3 t.origin_lng) ∈ uniquePts l
    ∧ (round3 t.dest_lat, round3 t.dest_lng) ∈ uniquePts l := by
  induction l with
  | nil => cases ht
  | cons a ts ih =>
    rcases List.mem_cons.mp ht with h | h
    · subst h
      constructor
      · exact List.mem_insert_self _ _
      · exact List.mem_insert_iff.mpr (Or.inr (List.mem_insert_self _ _))
    · obtain ⟨h1, h2⟩ := ih h
      exact ⟨List.mem_insert_of_mem (List.mem_insert_of_mem h1),
        List.mem_insert_of_mem (List.mem_insert_of_mem h2)⟩

theorem uniqueLat_const (l : List TripOD) (x : ℚ) (hne : l ≠ [])
    (h : ∀ t ∈ l, round3 t.origin_lat = x ∧ round3 t.dest_lat = x) :
    uniqueLat l = [x] := by
  induction l with
  | nil => cases hne rfl
  | cons a ts ih =>
    obtain ⟨ho, hd⟩ := h a (List.mem_cons_self a ts)
    show List.insert (round3 a.origin_lat) (List.insert (round3 a.dest_lat) (uniqueLat ts)) = [x]
    rw [ho, hd]
    by_cases hts : ts = []
    · subst hts
      simp [uniqueLat, List.insert]
    · rw [ih hts (fun t htm => h t (List.mem_cons_of_mem a htm))]
      rw [List.insert_of_mem (List.mem_singleton_self x),
        List.insert_of_mem (List.mem_singleton_self x)]

theorem uniqueLng_const (l : List TripOD) (x : ℚ) (hne : l ≠ [])
    (h : ∀ t ∈ l, round3 t.origin_lng = x ∧ round3 t.dest_lng = x) :
    uniqueLng l = [x] := by
  induction l with
  | nil => cases hne rfl
  | cons a ts ih =>
    obtain ⟨ho, hd⟩ := h a (List.mem_cons_self a ts)
    show List.insert (round3 a.origin_lng) (List.insert (round3 a.dest_lng) (uniqueLng ts)) = [x]
    rw [ho, hd]
    by_cases hts : ts = []
    · subst hts
      simp [uniqueLng, List.insert]
    · rw [ih hts (fun t htm => h t (List.mem_cons_of_mem a htm))]
      rw [List.insert_of_mem (List.mem_singleton_self x),
        List.insert_of_mem (List.mem_singleton_self x)]

/-- Claim C6: for a person with at least one unique rounded coordinate
point, the radius of gyration equals the square root of the mean of the
squared distances from each unique point to the centroid, whose
latitude is the arithmetic mean of the unique-rounded latitude values
and whose longitude is the arithmetic mean of the unique-rounded
longitude values, each mean taken independently over its own value
set. -/
theorem rog_centroid_df_spec (sqrt : ℚ → ℚ) (dist : ℚ × ℚ → ℚ × ℚ → ℚ)
    (table : List TripOD) (pid : ℕ)
    (h : 0 < (uniquePts (personTrips table pid)).length) :
    rog_centroid_df sqrt dist table pid
      = some (sqrt
          (((uniquePts (personTrips table pid)).map (fun p =>
              dist p (setMean (uniqueLat (personTrips table pid)),
                setMean (uniqueLng (personTrips table pid))) ^ 2)).sum
            / (uniquePts (personTrips table pid)).length)) := by
  unfold rog_centroid_df rog
  simp only [List.length_map, List.map_map]
  rw [if_neg (by omega), foldl_add_sq]
  simp [Function.comp_def]

/-- Witness for C6: a person with two unique points, with the external
distance function instantiated to the constant-zero function and the
square root to the identity. -/
theorem rog_centroid_df_spec_witness :
    0 < (uniquePts (personTrips [⟨5, 1, 2, 3, 4⟩] 5)).length
    ∧ rog_centroid_df (fun x => x) (fun _ _ => 0) [⟨5, 1, 2, 3, 4⟩] 5
      = some (((uniquePts (personTrips [⟨5, 1, 2, 3, 4⟩] 5)).map
            (fun _ => (0 : ℚ) ^ 2)).sum
          / (uniquePts (personTrips [⟨5, 1, 2, 3, 4⟩] 5)).length) :=
  ⟨by decide!, rog_centroid_df_spec (fun x => x) (fun _ _ => 0) [⟨5, 1, 2, 3, 4⟩] 5 (by decide!)⟩

/-- Claim C7: the radius-of-gyration result is absent (`none`) for a
person with zero valid coordinate pairs, equals `0` for a person with
exactly one unique rounded coordinate point, and is nonnegative whenever
it is defined — under the facts that `math.sqrt` fixes `0` and is
nonnegative on nonnegative inputs and that the geodesic distance from a
point to itself is `0`. -/
theorem rog_absent_and_bounds (sqrt : ℚ → ℚ) (dist : ℚ × ℚ → ℚ × ℚ → ℚ)
    (hs0 : sqrt 0 = 0) (hsnn : ∀ x, 0 ≤ x → 0 ≤ sqrt x) (hd0 : ∀ p, dist p p = 0)
    (table : List TripOD) (pid : ℕ) :
    (personTrips table pid = [] → rog_centroid_df sqrt dist table pid = none)
    ∧ ((uniquePts (personTrips table pid)).length = 1 →
        rog_centroid_df sqrt dist table pid = some 0)
    ∧ (∀ res, rog_centroid_df sqrt dist table pid = some res → 0 ≤ res) := by
  refine ⟨?_, ?_, ?_⟩
  · intro h
    simp [rog_centroid_df, h, uniquePts, rog]
  · intro h
    obtain ⟨p, hp⟩ := List.length_eq_one.mp h
    have hne : personTrips table pid ≠ [] := by
      intro hnil
      rw [hnil] at hp
      cases hp
    have hall : ∀ t ∈ personTrips table pid,
        (round3 t.origin_lat, round3 t.origin_lng) = p
        ∧ (round3 t.dest_lat, round3 t.dest_lng) = p := by
      intro t ht
      obtain ⟨h1, h2⟩ := pair_mem_uniquePts _ t ht
      rw [hp] at h1 h2
      exact ⟨List.mem_singleton.mp h1, List.mem_singleton.mp h2⟩
    have hlat : uniqueLat (personTrips table pid) = [p.1] :=
      uniqueLat_const _ _ hne (fun t ht =>
        ⟨congrArg Prod.fst (hall t ht).1, congrArg Prod.fst (hall t ht).2⟩)
    have hlng : uniqueLng (personTrips table pid) = [p.2] :=
      uniqueLng_const _ _ hne (fun t ht =>
        ⟨congrArg Prod.snd (hall t ht).1, congrArg Prod.snd (hall t ht).2⟩)
    simp only [rog_centroid_df, rog, hp, hlat, hlng]
    simp [setMean, hd0, hs0]
  · intro res hres
    simp only [rog_centroid_df, rog] at hres
    by_cases hn : ((uniquePts (personTrips table pid)).map (fun q =>
        dist q (setMean (uniqueLat (personTrips table pid)),
          setMean (uniqueLng (personTrips table pid))))).length = 0
    · rw [if_pos] at hres
      · cases hres
      · exact hn
    · rw [if_neg hn] at hres
      injection hres with hres
      subst hres
      apply hsnn
      apply div_nonneg
      · rw [foldl_add_sq]
        have : ∀ x ∈ (((uniquePts (personTrips table pid)).map (fun q =>
            dist q (setMean (uniqueLat (personTrips table pid)),
              setMean (uniqueLng (personTrips table pid))))).map (fun d => d ^ 2)), 0 ≤ x := by
          intro x hx
          obtain ⟨d, _, rfl⟩ := List.mem_map.mp hx
          positivity
        have hsum := List.sum_nonneg this
        linarith
      · positivity

/-- Witness for C7: a person whose single trip loops at one point gets
radius of gyration `0`, with the constant-zero distance and identity
square root. -/
theorem rog_absent_and_bounds_witness :
    rog_centroid_df (fun x => x) (fun _ _ => 0) [⟨9, 1, 2, 1, 2⟩] 9 = some 0 :=
  (rog_absent_and_bounds (fun x => x) (fun _ _ => 0) rfl (fun x hx => hx)
    (fun p => rfl) [⟨9, 1, 2, 1, 2⟩] 9).2.1 (by decide!)
